import Mathlib

/-!
Verification of the compound-curation pipeline
(curated_compound_swiss_target.ipynb).

The embedding follows the notebook cell by cell:
the name normalizer and resolver (Cell 3, get_cid_and_smiles),
the batch processing loop (Cell 4), the quality filter (Cell 5),
and the input validation (Cell 2).  The external PubChem service is
modelled as an oracle (a pair of response functions), with one
constructor for each observable behaviour of a request in the Python
code: an exception during the request or during JSON decoding, an
empty response body, or a successfully parsed payload.
-/

/-- Resolution outcome, one constructor per status string returned by
get_cid_and_smiles in Cell 3. -/
inductive Status where
  | successOriginal
  | successVariant
  | failed
deriving DecidableEq

/-- The literal status strings the notebook stores in the Status column. -/
def statusStr : Status → String
  | Status.successOriginal => "Success (Original Name)"
  | Status.successVariant => "Success (Name Variant)"
  | Status.failed => "Failed"

/-- The (cid, smiles, status) tuple returned by get_cid_and_smiles. -/
structure ResolutionResult where
  cid : Option Nat
  smiles : Option String
  status : Status
deriving DecidableEq

/-- Observable behaviour of one name-to-CID request in Cell 3.
err: urlopen raised (transport error, timeout) or json.loads or the
IdentifierList / CID access raised (malformed response); emptyBody: the
reply had length 0 (the code then continues to the next candidate);
parsed: the decoded identifier list (may be empty, in which case the
index access [0] raises and the code continues). -/
inductive CidReply where
  | err
  | emptyBody
  | parsed (cids : List Nat)
deriving DecidableEq

/-- Observable behaviour of one CID-to-SMILES request in Cell 3.
err: urlopen or JSON decoding raised; emptyBody: reply of length 0 (the
success branch is skipped and the loop moves on); parsed: the decoded
SMILES string, which may be the empty string. -/
inductive SmilesReply where
  | err
  | emptyBody
  | parsed (smiles : String)
deriving DecidableEq

/-- The external PubChem service as seen by the resolver: a stable
response for every name query and every CID query. -/
structure Service where
  cidLookup : String → CidReply
  smilesLookup : Nat → SmilesReply

/-- Python str.strip(): remove leading and trailing whitespace. -/
def pyStrip (s : String) : String :=
  String.mk (((s.toList.dropWhile Char.isWhitespace).reverse.dropWhile
    Char.isWhitespace).reverse)

/-- Python str.replace(old, new) for a single-character pattern:
replace every occurrence of the character c by the string r. -/
def replaceChar (c : Char) (r : String) (s : String) : String :=
  String.mk (s.toList.foldr (fun ch acc => if ch = c then r.toList ++ acc else ch :: acc) [])

/-- The Greek-letter substitution chain of Cell 3:
.replace of alpha, then beta, then gamma, applied in source order. -/
def greekNormalize (s : String) : String :=
  replaceChar 'γ' "gamma" (replaceChar 'β' "beta" (replaceChar 'α' "alpha" s))

/-- Python list(dict.fromkeys(l)): deduplicate keeping the first
occurrence of each element, preserving order (accumulator version). -/
def pyDedupAux (seen : List String) : List String → List String
  | [] => []
  | x :: xs => if x ∈ seen then pyDedupAux seen xs else x :: pyDedupAux (x :: seen) xs

/-- Python list(dict.fromkeys(l)). -/
def pyDedup (l : List String) : List String := pyDedupAux [] l

/-- The names_to_try list of Cell 3: the stripped original name followed
by its Greek-normalized variant, deduplicated in order. -/
def namesToTry (compound_name : String) : List String :=
  pyDedup [pyStrip compound_name, greekNormalize (pyStrip compound_name)]

/-- One iteration of the candidate loop in get_cid_and_smiles: look up
the candidate name, take the first CID of the reply, look up its SMILES.
Returns none exactly when the Python code would move to the next
candidate (exception, empty reply body, or empty identifier list). -/
def tryCandidate (svc : Service) (name_attempt : String) : Option (Nat × String) :=
  match svc.cidLookup name_attempt with
  | CidReply.err => none
  | CidReply.emptyBody => none
  | CidReply.parsed [] => none
  | CidReply.parsed (cid :: _) =>
    match svc.smilesLookup cid with
    | SmilesReply.err => none
    | SmilesReply.emptyBody => none
    | SmilesReply.parsed s => some (cid, s)

/-- The candidate loop of get_cid_and_smiles with the enumerate index i:
the first successful candidate wins, index 0 gives the original-name
status, later indices the variant status; exhaustion gives Failed. -/
def resolveAux (svc : Service) : List String → Nat → ResolutionResult
  | [], _ => ⟨none, none, Status.failed⟩
  | n :: rest, i =>
    match tryCandidate svc n with
    | some (cid, s) =>
      ⟨some cid, some s, if i = 0 then Status.successOriginal else Status.successVariant⟩
    | none => resolveAux svc rest (i + 1)

/-- Cell 3: get_cid_and_smiles(compound_name) against a service oracle. -/
def get_cid_and_smiles (svc : Service) (compound_name : String) : ResolutionResult :=
  resolveAux svc (namesToTry compound_name) 0

/-- A service on which every request fails with a transport error. -/
def svcFail : Service where
  cidLookup := fun _ => CidReply.err
  smilesLookup := fun _ => SmilesReply.err

/-- A service that resolves every name to CID 7 with SMILES CCO. -/
def svcOk : Service where
  cidLookup := fun _ => CidReply.parsed [7]
  smilesLookup := fun _ => SmilesReply.parsed "CCO"

/-- A service whose CID-to-SMILES reply is a non-empty body that parses
to the empty SMILES string. -/
def svcEmptySmiles : Service where
  cidLookup := fun _ => CidReply.parsed [42]
  smilesLookup := fun _ => SmilesReply.parsed ""

theorem tryCandidate_some (svc : Service) (n : String) (c : Nat) (s : String)
    (h : tryCandidate svc n = some (c, s)) :
    svc.smilesLookup c = SmilesReply.parsed s
      ∧ ∃ cids, svc.cidLookup n = CidReply.parsed (c :: cids) := by
  unfold tryCandidate at h
  split at h
  · exact absurd h (by simp)
  · exact absurd h (by simp)
  · exact absurd h (by simp)
  · next cid tail hc =>
    split at h
    · exact absurd h (by simp)
    · exact absurd h (by simp)
    · next s0 hs =>
      simp only [Option.some.injEq, Prod.mk.injEq] at h
      obtain ⟨rfl, rfl⟩ := h
      exact ⟨hs, tail, hc⟩

theorem resolveAux_cases (svc : Service) (l : List String) (i : Nat) :
    (resolveAux svc l i = ⟨none, none, Status.failed⟩ ∧ ∀ n ∈ l, tryCandidate svc n = none)
    ∨ (∃ c s, (resolveAux svc l i).cid = some c ∧ (resolveAux svc l i).smiles = some s
        ∧ (resolveAux svc l i).status ≠ Status.failed
        ∧ svc.smilesLookup c = SmilesReply.parsed s
        ∧ ∃ n, n ∈ l ∧ ∃ cids, svc.cidLookup n = CidReply.parsed (c :: cids)) := by
  induction l generalizing i with
  | nil => exact Or.inl ⟨rfl, by simp⟩
  | cons n rest ih =>
    cases h : tryCandidate svc n with
    | none =>
      rcases ih (i + 1) with ⟨he, hall⟩ | ⟨c, s, h1, h2, h3, h4, n', hn', hc⟩
      · refine Or.inl ⟨?_, ?_⟩
        · simp only [resolveAux, h]; exact he
        · intro m hm
          rcases List.mem_cons.mp hm with rfl | hm'
          · exact h
          · exact hall m hm'
      · refine Or.inr ⟨c, s, ?_, ?_, ?_, h4, n', List.mem_cons_of_mem n hn', hc⟩
        · simp only [resolveAux, h]; exact h1
        · simp only [resolveAux, h]; exact h2
        · simp only [resolveAux, h]; exact h3
    | some p =>
      obtain ⟨c, s⟩ := p
      obtain ⟨hs, cids, hc⟩ := tryCandidate_some svc n c s h
      refine Or.inr ⟨c, s, ?_, ?_, ?_, hs, n, List.mem_cons_self n rest, cids, hc⟩
      · simp only [resolveAux, h]
      · simp only [resolveAux, h]
      · simp only [resolveAux, h]
        by_cases hi : i = 0 <;> simp [hi]

theorem tryCandidate_eq_some (svc : Service) (n : String) (c : Nat) (s : String)
    (cids : List Nat) (hc : svc.cidLookup n = CidReply.parsed (c :: cids))
    (hs : svc.smilesLookup c = SmilesReply.parsed s) :
    tryCandidate svc n = some (c, s) := by
  unfold tryCandidate
  simp only [hc, hs]

theorem resolveAux_failed_iff (svc : Service) (l : List String) (i : Nat) :
    resolveAux svc l i = ⟨none, none, Status.failed⟩
      ↔ ∀ n ∈ l, tryCandidate svc n = none := by
  rcases resolveAux_cases svc l i with ⟨he, hall⟩ | ⟨c, s, h1, _, _, hsm, n, hn, cids, hc⟩
  · exact iff_of_true he hall
  · refine iff_of_false (fun he => ?_) (fun hall => ?_)
    · rw [he] at h1; exact absurd h1 (by simp)
    · have h2 := hall n hn
      rw [tryCandidate_eq_some svc n c s cids hc hsm] at h2
      exact absurd h2 (by simp)

/-- Claim C1: for every service behaviour and name, the (cid, smiles,
status) triple returned by get_cid_and_smiles has cid null iff status is
Failed, and smiles null iff status is Failed; so cid and smiles are both
non-null exactly on a success status. -/
theorem resolver_null_iff_failed (svc : Service) (name : String) :
    ((get_cid_and_smiles svc name).cid = none
        ↔ (get_cid_and_smiles svc name).status = Status.failed)
    ∧ ((get_cid_and_smiles svc name).smiles = none
        ↔ (get_cid_and_smiles svc name).status = Status.failed) := by
  unfold get_cid_and_smiles
  rcases resolveAux_cases svc (namesToTry name) 0 with ⟨he, _⟩ | ⟨c, s, h1, h2, h3, _, _⟩
  · rw [he]; exact ⟨by simp, by simp⟩
  · constructor
    · rw [h1]; exact iff_of_false (by simp) h3
    · rw [h2]; exact iff_of_false (by simp) h3

/-- Claim C2 counterexample: on a service whose CID-to-SMILES reply is a
non-empty body that parses to the empty SMILES string, get_cid_and_smiles
returns a success status whose structural encoding is the empty string,
so a success status does not guarantee a non-empty encoding. -/
theorem resolver_success_empty_structure_cex :
    (get_cid_and_smiles svcEmptySmiles "x").status = Status.successOriginal
    ∧ (get_cid_and_smiles svcEmptySmiles "x").smiles = some "" := by
  constructor <;> decide

/-- Claim C2 (amended): whenever get_cid_and_smiles returns a success
status, the cid and smiles fields are non-null and the smiles field is
exactly the string parsed from a non-empty CID-to-SMILES response body
for the returned cid; the code tests the raw response body for
emptiness, not the parsed encoding, so the encoding itself may still be
empty (emptiness is only enforced later by the Cell 5 quality filter). -/
theorem resolver_success_structure_from_lookup (svc : Service) (name : String)
    (h : (get_cid_and_smiles svc name).status ≠ Status.failed) :
    ∃ c s, (get_cid_and_smiles svc name).cid = some c
      ∧ (get_cid_and_smiles svc name).smiles = some s
      ∧ svc.smilesLookup c = SmilesReply.parsed s := by
  rcases resolveAux_cases svc (namesToTry name) 0 with ⟨he, _⟩ | ⟨c, s, h1, h2, _, h4, _⟩
  · exfalso
    apply h
    show (resolveAux svc (namesToTry name) 0).status = Status.failed
    rw [he]
  · exact ⟨c, s, h1, h2, h4⟩

/-- Witness for the amended C2 theorem at a concrete succeeding service. -/
theorem resolver_success_structure_from_lookup_w :
    ∃ c s, (get_cid_and_smiles svcOk "ethanol").cid = some c
      ∧ (get_cid_and_smiles svcOk "ethanol").smiles = some s
      ∧ svcOk.smilesLookup c = SmilesReply.parsed s :=
  resolver_success_structure_from_lookup svcOk "ethanol" (by decide)

/-- Claim C5: the candidate list is the trimmed original name followed
by its Greek-normalized variant (alpha, beta, gamma spelled out), with
the variant omitted exactly when it is textually identical to the
original; the list is never empty, its head is the trimmed original, and
it contains no duplicates. -/
theorem namesToTry_spec (s : String) :
    namesToTry s =
      (if greekNormalize (pyStrip s) = pyStrip s then [pyStrip s]
       else [pyStrip s, greekNormalize (pyStrip s)])
    ∧ (namesToTry s).head? = some (pyStrip s)
    ∧ namesToTry s ≠ []
    ∧ (namesToTry s).Nodup := by
  have key : namesToTry s =
      (if greekNormalize (pyStrip s) = pyStrip s then [pyStrip s]
       else [pyStrip s, greekNormalize (pyStrip s)]) := by
    by_cases h : greekNormalize (pyStrip s) = pyStrip s
    · simp [namesToTry, pyDedup, pyDedupAux, h]
    · simp [namesToTry, pyDedup, pyDedupAux, h]
  refine ⟨key, ?_, ?_, ?_⟩
  · rw [key]; by_cases h : greekNormalize (pyStrip s) = pyStrip s <;> simp [h]
  · rw [key]; by_cases h : greekNormalize (pyStrip s) = pyStrip s <;> simp [h]
  · rw [key]; by_cases h : greekNormalize (pyStrip s) = pyStrip s
    · simp [h]
    · simp [h]
      exact fun hh => h hh.symm

/-- Claim C6: the resolver is total over every modelled behaviour of the
external service (the reply constructors cover transport error, timeout,
malformed response, empty body, empty identifier list and empty
structure response): it returns (null, null, Failed) exactly when every
candidate attempt fails, so a failing candidate only advances the loop
and exhaustion degrades to Failed instead of propagating an error. -/
theorem resolver_failed_iff_all_candidates_fail (svc : Service) (name : String) :
    (get_cid_and_smiles svc name = ⟨none, none, Status.failed⟩
      ↔ ∀ n ∈ namesToTry name, tryCandidate svc n = none)
    ∧ ∀ n rest i, tryCandidate svc n = none →
        resolveAux svc (n :: rest) i = resolveAux svc rest (i + 1) := by
  refine ⟨resolveAux_failed_iff svc (namesToTry name) 0, fun n rest i hn => ?_⟩
  simp only [resolveAux, hn]

/-- Witness for C6 at a service failing every request. -/
theorem resolver_failed_iff_all_candidates_fail_w :
    get_cid_and_smiles svcFail "abc" = ⟨none, none, Status.failed⟩ :=
  (resolver_failed_iff_all_candidates_fail svcFail "abc").1.mpr (by decide)

theorem resolveAux_congr (svc svc' : Service) (l : List String) (i : Nat)
    (hs : ∀ c, svc.smilesLookup c = svc'.smilesLookup c) :
    (∀ n ∈ l, svc.cidLookup n = svc'.cidLookup n) →
      resolveAux svc l i = resolveAux svc' l i := by
  induction l generalizing i with
  | nil => intro _; rfl
  | cons n rest ih =>
    intro hc
    have ht : tryCandidate svc n = tryCandidate svc' n := by
      unfold tryCandidate
      rw [hc n (List.mem_cons_self n rest)]
      cases hcc : svc'.cidLookup n with
      | err => rfl
      | emptyBody => rfl
      | parsed cids =>
        cases cids with
        | nil => rfl
        | cons c t => simp only [hs c]
    simp only [resolveAux, ht]
    cases h2 : tryCandidate svc' n with
    | some p => rfl
    | none =>
      show resolveAux svc rest (i + 1) = resolveAux svc' rest (i + 1)
      exact ih (i + 1) (fun m hm => hc m (List.mem_cons_of_mem n hm))

/-- Claim C9: the resolver is deterministic with respect to the external
service: two runs against services that return the same replies on the
queried names and identifiers produce identical (cid, smiles, status)
tuples; in particular re-running on the same name against the same
stable mocked service yields identical output. -/
theorem resolver_deterministic (svc svc' : Service) (name : String)
    (hc : ∀ n ∈ namesToTry name, svc.cidLookup n = svc'.cidLookup n)
    (hs : ∀ c, svc.smilesLookup c = svc'.smilesLookup c) :
    get_cid_and_smiles svc name = get_cid_and_smiles svc' name :=
  resolveAux_congr svc svc' (namesToTry name) 0 hs hc

/-- Witness for C9: two runs on the same mocked service coincide. -/
theorem resolver_deterministic_w :
    get_cid_and_smiles svcOk "Rhynchophylline"
      = get_cid_and_smiles svcOk "Rhynchophylline" :=
  resolver_deterministic svcOk svcOk "Rhynchophylline" (fun _ _ => rfl) (fun _ => rfl)

/-- Python substring membership test (the in operator on strings, and
the regex-free pandas str.contains): needle occurs contiguously in hay. -/
def containsSub (needle hay : String) : Bool :=
  decide (needle.toList <:+: hay.toList)

/-- A cell of the results table built in Cell 4.  The result_row dict
mixes the pass-through CSV strings with the resolver outputs: a possibly
null CID, a possibly null SMILES, and a status. -/
inductive CellVal where
  | str (s : String)
  | natOpt (n : Option Nat)
  | strOpt (s : Option String)
  | stat (st : Status)
deriving DecidableEq

/-- Python dict assignment d[k] = v: overwrite in place if the key is
present (keeping its position), else append the new binding. -/
def dictInsert (k : String) (v : CellVal) : List (String × CellVal) → List (String × CellVal)
  | [] => [(k, v)]
  | (k0, v0) :: rest => if k0 = k then (k, v) :: rest else (k0, v0) :: dictInsert k v rest

/-- Python dict access d[k] on the result rows: first binding wins
(bindings are unique by construction of dictInsert). -/
def dictLookup (k : String) : List (String × CellVal) → Option CellVal
  | [] => none
  | (k0, v) :: rest => if k0 = k then some v else dictLookup k rest

/-- Access row[col] of an input CSV row, modelled as an association list
from column name to cell string. -/
def lookupCell (row : List (String × String)) (col : String) : String :=
  match row.find? (fun p => p.1 == col) with
  | some p => p.2
  | none => ""

/-- The four resolution fields the Cell 4 loop writes into result_row
before copying the pass-through columns. -/
def baseRow (res : ResolutionResult) (compound_name : String) : List (String × CellVal) :=
  [("Name", CellVal.str compound_name),
   ("PubChem_CID", CellVal.natOpt res.cid),
   ("Smiles", CellVal.strOpt res.smiles),
   ("Status", CellVal.stat res.status)]

/-- The body of the pass-through loop of Cell 4:
result_row[col] = row[col]. -/
def addCol (row : List (String × String)) (d : List (String × CellVal)) (col : String) :
    List (String × CellVal) :=
  dictInsert col (CellVal.str (lookupCell row col)) d

/-- One iteration of the Cell 4 processing loop: resolve the stripped
name, build result_row from the four resolution fields, then copy every
input column other than Name on top of it. -/
def processRow (svc : Service) (cols : List String) (row : List (String × String)) :
    List (String × CellVal) :=
  (cols.filter (fun c => c != "Name")).foldl (addCol row)
    (baseRow (get_cid_and_smiles svc (pyStrip (lookupCell row "Name")))
      (pyStrip (lookupCell row "Name")))

/-- Whether the Cell 4 loop counts a row as successful:
the test if Success in status on the status string. -/
def rowSuccess (svc : Service) (row : List (String × String)) : Bool :=
  containsSub "Success"
    (statusStr (get_cid_and_smiles svc (pyStrip (lookupCell row "Name"))).status)

/-- The summary statistics printed at the end of Cell 4. -/
structure RunSummary where
  total : Nat
  success_count : Nat
  failed_count : Nat
  failed_compounds : List String
deriving DecidableEq

/-- Cell 4: the batch over the validated input table.  The guard
len(df_input) == 0 short-circuits (no results, no counters, no summary);
otherwise one result row is appended per input row, in input order, and
the counters and failed-name list are accumulated over the loop. -/
def runBatch (svc : Service) (cols : List String) (rows : List (List (String × String))) :
    Option (List (List (String × CellVal)) × RunSummary) :=
  if rows.length = 0 then none
  else
    some (rows.map (processRow svc cols),
      { total := rows.length
        success_count := (rows.filter (fun r => rowSuccess svc r)).length
        failed_count := (rows.filter (fun r => !rowSuccess svc r)).length
        failed_compounds := (rows.filter (fun r => !rowSuccess svc r)).map
          (fun r => pyStrip (lookupCell r "Name")) })

/-- The success mask of Cell 5: df_results.Status.str.contains with
na=False, so a non-string cell never matches. -/
def successMaskCell : Option CellVal → Bool
  | some (CellVal.stat st) => containsSub "Success" (statusStr st)
  | some (CellVal.str s) => containsSub "Success" s
  | _ => false

/-- Whether a Smiles cell is null for dropna in Cell 5. -/
def isNaCell : Option CellVal → Bool
  | some (CellVal.strOpt none) => true
  | some (CellVal.natOpt none) => true
  | _ => false

/-- The third Cell 5 filter, Smiles.str.strip() != the empty string, on
one Smiles cell (non-string cells compare unequal and survive). -/
def stripNonemptyCell : Option CellVal → Bool
  | some (CellVal.str s) => pyStrip s != ""
  | some (CellVal.strOpt (some s)) => pyStrip s != ""
  | _ => true

/-- Cell 5: the quality filter building df_clean from df_results: keep
the success-status rows, drop null Smiles, drop whitespace-only
Smiles. -/
def qualityFilter (res : List (List (String × CellVal))) : List (List (String × CellVal)) :=
  ((res.filter (fun r => successMaskCell (dictLookup "Status" r))).filter
      (fun r => !isNaCell (dictLookup "Smiles" r))).filter
    (fun r => stripNonemptyCell (dictLookup "Smiles" r))

/-- Cell 5 guarded by its df_results existence and non-emptiness check:
the clean table exists only when Cell 4 produced a non-empty result
list. -/
def cleanStage :
    Option (List (List (String × CellVal)) × RunSummary) →
      Option (List (List (String × CellVal)))
  | none => none
  | some (res, _) => if res.length > 0 then some (qualityFilter res) else none

/-- Outcome of reading the input CSV in Cell 2: a parsed table with
header columns and rows, a missing file, or any other read error. -/
inductive ReadResult where
  | ok (cols : List String) (rows : List (List (String × String)))
  | fileNotFound
  | readError

/-- Cell 2: df_input after validation.  A missing Name column raises
ValueError which the generic except turns into an empty DataFrame, and
both read failures also leave an empty DataFrame. -/
def cell2Input : ReadResult → List String × List (List (String × String))
  | ReadResult.ok cols rows => if "Name" ∈ cols then (cols, rows) else ([], [])
  | _ => ([], [])

/-- The CRITICAL log lines emitted by Cell 2, one per violation branch. -/
def cell2CriticalLogs : ReadResult → List String
  | ReadResult.ok cols _ =>
      if "Name" ∈ cols then []
      else ["CRITICAL: Failed to read input file. Error: Required column Name not found"]
  | ReadResult.fileNotFound => ["CRITICAL: File not found. Please upload the file."]
  | ReadResult.readError => ["CRITICAL: Failed to read input file."]

/-- An input contract violation in the sense of the spec: required Name
column missing, or the input file absent or unreadable. -/
def inputViolation : ReadResult → Prop
  | ReadResult.ok cols _ => "Name" ∉ cols
  | _ => True

/-- The Stage 1 pipeline through Cell 4: validated input fed to the
batch. -/
def pipeline (rr : ReadResult) (svc : Service) :
    Option (List (List (String × CellVal)) × RunSummary) :=
  runBatch svc (cell2Input rr).1 (cell2Input rr).2

theorem dictLookup_insert_self (k : String) (v : CellVal) (d : List (String × CellVal)) :
    dictLookup k (dictInsert k v d) = some v := by
  induction d with
  | nil => simp [dictInsert, dictLookup]
  | cons p rest ih =>
    obtain ⟨k0, v0⟩ := p
    by_cases h : k0 = k
    · subst h; simp [dictInsert, dictLookup]
    · simp [dictInsert, dictLookup, h, ih]

theorem dictLookup_insert_ne (k k0 : String) (h : k0 ≠ k) (v : CellVal)
    (d : List (String × CellVal)) :
    dictLookup k (dictInsert k0 v d) = dictLookup k d := by
  induction d with
  | nil => simp [dictInsert, dictLookup, h]
  | cons p rest ih =>
    obtain ⟨k1, v1⟩ := p
    by_cases h1 : k1 = k0
    · subst h1; simp [dictInsert, dictLookup, h]
    · by_cases h2 : k1 = k <;> simp [dictInsert, dictLookup, h1, h2, Ne.symm h, ih]

theorem dictLookup_foldl_not_mem (row : List (String × String)) (k : String)
    (l : List String) (h : k ∉ l) (d : List (String × CellVal)) :
    dictLookup k (l.foldl (addCol row) d) = dictLookup k d := by
  induction l generalizing d with
  | nil => rfl
  | cons c t ih =>
    rw [List.foldl_cons]
    rw [ih (fun hm => h (List.mem_cons_of_mem c hm))]
    exact dictLookup_insert_ne k c
      (fun hc => h (by rw [← hc]; exact List.mem_cons_self c t)) _ d

theorem dictLookup_foldl_mem (row : List (String × String)) (k : String)
    (l : List String) (h : k ∈ l) (d : List (String × CellVal)) :
    dictLookup k (l.foldl (addCol row) d) = some (CellVal.str (lookupCell row k)) := by
  induction l generalizing d with
  | nil => cases h
  | cons c t ih =>
    rw [List.foldl_cons]
    by_cases ht : k ∈ t
    · exact ih ht _
    · have hkc : k = c := by
        rcases List.mem_cons.mp h with h1 | h2
        · exact h1
        · exact absurd h2 ht
      subst hkc
      rw [dictLookup_foldl_not_mem row k t ht]
      exact dictLookup_insert_self k _ d

theorem dictLookup_insert_isSome (k k0 : String) (v : CellVal) (d : List (String × CellVal))
    (h : (dictLookup k d).isSome = true) :
    (dictLookup k (dictInsert k0 v d)).isSome = true := by
  by_cases hk : k0 = k
  · subst hk; rw [dictLookup_insert_self]; rfl
  · rw [dictLookup_insert_ne k k0 hk]; exact h

theorem dictLookup_foldl_isSome (row : List (String × String)) (k : String)
    (l : List String) (d : List (String × CellVal))
    (h : (dictLookup k d).isSome = true) :
    (dictLookup k (l.foldl (addCol row) d)).isSome = true := by
  induction l generalizing d with
  | nil => exact h
  | cons c t ih =>
    rw [List.foldl_cons]
    exact ih _ (dictLookup_insert_isSome k c _ d h)

theorem processRow_passthrough (svc : Service) (cols : List String)
    (row : List (String × String)) (col : String) (hmem : col ∈ cols) (hne : col ≠ "Name") :
    dictLookup col (processRow svc cols row) = some (CellVal.str (lookupCell row col)) := by
  unfold processRow
  apply dictLookup_foldl_mem
  rw [List.mem_filter]
  exact ⟨hmem, bne_iff_ne.mpr hne⟩

theorem processRow_keys (svc : Service) (cols : List String) (row : List (String × String)) :
    (dictLookup "Name" (processRow svc cols row)).isSome = true
    ∧ (dictLookup "PubChem_CID" (processRow svc cols row)).isSome = true
    ∧ (dictLookup "Smiles" (processRow svc cols row)).isSome = true
    ∧ (dictLookup "Status" (processRow svc cols row)).isSome = true := by
  unfold processRow
  refine ⟨?_, ?_, ?_, ?_⟩ <;> exact dictLookup_foldl_isSome _ _ _ _ (by rfl)

/-- Claim C4: on a non-empty input table the batch produces exactly one
result row per input record, namely the in-order map of processRow over
the input rows (so output position i holds the processed input row i);
each output row binds every pass-through column to its unchanged input
value and carries the four resolution keys Name, PubChem_CID, Smiles and
Status. -/
theorem batch_order_and_passthrough (svc : Service) (cols : List String)
    (rows : List (List (String × String))) (hne : rows ≠ []) :
    (∃ sum, runBatch svc cols rows = some (rows.map (processRow svc cols), sum))
    ∧ (rows.map (processRow svc cols)).length = rows.length
    ∧ (∀ i : Nat, (rows.map (processRow svc cols))[i]?
        = (rows[i]?).map (processRow svc cols))
    ∧ (∀ row col, col ∈ cols → col ≠ "Name" →
        dictLookup col (processRow svc cols row) = some (CellVal.str (lookupCell row col)))
    ∧ (∀ row, (dictLookup "Name" (processRow svc cols row)).isSome = true
        ∧ (dictLookup "PubChem_CID" (processRow svc cols row)).isSome = true
        ∧ (dictLookup "Smiles" (processRow svc cols row)).isSome = true
        ∧ (dictLookup "Status" (processRow svc cols row)).isSome = true) := by
  have hbatch : runBatch svc cols rows = some (rows.map (processRow svc cols),
      { total := rows.length
        success_count := (rows.filter (fun r => rowSuccess svc r)).length
        failed_count := (rows.filter (fun r => !rowSuccess svc r)).length
        failed_compounds := (rows.filter (fun r => !rowSuccess svc r)).map
          (fun r => pyStrip (lookupCell r "Name")) }) := by
    unfold runBatch
    rw [if_neg (fun h0 => hne (List.length_eq_zero.mp h0))]
  exact ⟨⟨_, hbatch⟩, by simp, fun i => List.getElem?_map (processRow svc cols) rows i,
    fun row col h1 h2 => processRow_passthrough svc cols row col h1 h2,
    fun row => processRow_keys svc cols row⟩

/-- Witness row for the batch claims. -/
def rowIn : List (String × String) := [("Name", "x"), ("Formula", "C2")]

/-- Witness for C4: a concrete pass-through column survives unchanged. -/
theorem batch_order_and_passthrough_w :
    dictLookup "Formula" (processRow svcOk ["Name", "Formula"] rowIn)
      = some (CellVal.str (lookupCell rowIn "Formula")) :=
  ((batch_order_and_passthrough svcOk ["Name", "Formula"] [rowIn] (by decide)).2.2.2.1)
    rowIn "Formula" (by decide) (by decide)

/-- Claim C7 counterexample: on an empty input table Cell 4 takes the
no-input guard branch and produces no result list and no RunSummary at
all, so there is no RunSummary reporting total zero for that run. -/
theorem empty_input_no_summary_cex :
    ¬ ∃ out sum, runBatch svcOk ["Name"] [] = some (out, sum) ∧ sum.total = 0 := by
  rintro ⟨out, sum, h, -⟩
  exact absurd h (by simp [runBatch])

/-- Claim C7 (amended): on an empty input table the batch short-circuits
producing no output at all: it returns none (no result rows and no
RunSummary, with any total), and the outcome is independent of the
service, so the resolver is never consulted. -/
theorem runBatch_empty (svc svc2 : Service) (cols : List String) :
    runBatch svc cols [] = none ∧ runBatch svc cols [] = runBatch svc2 cols [] :=
  ⟨rfl, rfl⟩

/-- Claim C8: an input contract violation (missing Name column, absent
or unreadable input file) is fatal: Cell 2 reports exactly one CRITICAL
line, the pipeline produces neither a full-result table nor a summary,
the clean stage therefore produces nothing either, and the outcome is
independent of the service, so no record is processed by the
resolver. -/
theorem input_violation_fatal (rr : ReadResult) (svc : Service) (h : inputViolation rr) :
    (cell2CriticalLogs rr).length = 1
    ∧ pipeline rr svc = none
    ∧ cleanStage (pipeline rr svc) = none
    ∧ ∀ svc2, pipeline rr svc = pipeline rr svc2 := by
  cases rr with
  | ok cols rows =>
    have hn : "Name" ∉ cols := h
    refine ⟨?_, ?_, ?_, fun svc2 => ?_⟩
    · simp [cell2CriticalLogs, hn]
    · simp [pipeline, cell2Input, runBatch, hn]
    · simp [pipeline, cell2Input, runBatch, cleanStage, hn]
    · simp [pipeline, cell2Input, runBatch, hn]
  | fileNotFound => exact ⟨rfl, rfl, rfl, fun _ => rfl⟩
  | readError => exact ⟨rfl, rfl, rfl, fun _ => rfl⟩

/-- Witness for C8 at a missing input file. -/
theorem input_violation_fatal_w : pipeline ReadResult.fileNotFound svcOk = none :=
  (input_violation_fatal ReadResult.fileNotFound svcOk True.intro).2.1

theorem bool_and_rot (a b c : Bool) : ((c && b) && a) = ((a && b) && c) := by
  cases a <;> cases b <;> cases c <;> rfl

/-- Claim C3: the clean table is exactly the rows of the full result
table passing the combined quality predicate (success status mask AND
non-null Smiles AND non-whitespace-only Smiles); it is a sublist of the
full table, so every clean row appears in the full table with all fields
(resolution fields included) identical, and every clean row has a
non-Failed status cell and a non-null Smiles cell whose string is
non-empty after stripping. -/
theorem clean_exact_filter (res : List (List (String × CellVal))) :
    qualityFilter res = res.filter
        (fun r => (successMaskCell (dictLookup "Status" r)
          && !isNaCell (dictLookup "Smiles" r))
          && stripNonemptyCell (dictLookup "Smiles" r))
    ∧ (qualityFilter res).Sublist res
    ∧ ∀ r ∈ qualityFilter res,
        r ∈ res
        ∧ (∀ st, dictLookup "Status" r = some (CellVal.stat st) → st ≠ Status.failed)
        ∧ (∀ o, dictLookup "Smiles" r = some (CellVal.strOpt o) →
            ∃ s, o = some s ∧ pyStrip s ≠ "") := by
  have key : qualityFilter res = res.filter
      (fun r => (successMaskCell (dictLookup "Status" r)
        && !isNaCell (dictLookup "Smiles" r))
        && stripNonemptyCell (dictLookup "Smiles" r)) := by
    unfold qualityFilter
    rw [List.filter_filter, List.filter_filter]
    exact List.filter_congr (fun r _ => bool_and_rot _ _ _)
  refine ⟨key, ?_, ?_⟩
  · rw [key]; exact List.filter_sublist res
  · intro r hr
    rw [key, List.mem_filter] at hr
    obtain ⟨hmem, hp⟩ := hr
    simp only [Bool.and_eq_true, Bool.not_eq_true'] at hp
    obtain ⟨⟨hsucc, hna⟩, hstrip⟩ := hp
    refine ⟨hmem, fun st hst => ?_, fun o ho => ?_⟩
    · rw [hst] at hsucc
      cases st with
      | successOriginal => simp
      | successVariant => simp
      | failed => exact absurd hsucc (by decide)
    · rw [ho] at hna hstrip
      cases o with
      | none => exact absurd hna (by decide)
      | some s =>
        refine ⟨s, rfl, ?_⟩
        have hb : (pyStrip s != "") = true := hstrip
        exact bne_iff_ne.mp hb

/-- Witness full-result row for C3: a successful resolution row. -/
def rowGood : List (String × CellVal) :=
  [("Name", CellVal.str "x"), ("PubChem_CID", CellVal.natOpt (some 7)),
   ("Smiles", CellVal.strOpt (some "CCO")), ("Status", CellVal.stat Status.successOriginal)]

/-- Witness for C3 at a one-row result table that passes the filter. -/
theorem clean_exact_filter_w :
    ∃ s, (some "CCO" : Option String) = some s ∧ pyStrip s ≠ "" :=
  (((clean_exact_filter [rowGood]).2.2 rowGood (by decide)).2.2 (some "CCO") (by decide))

/-- Claim C10: the Cell 4 result row is built by writing the four
resolution fields first and then copying every non-Name input column on
top of the dict, so an input pass-through column literally named
PubChem_CID, Smiles or Status ends up holding the input value as a plain
string cell, overwriting the resolver output for that field. -/
theorem passthrough_overwrites_resolver (svc : Service) (cols : List String)
    (row : List (String × String)) (col : String) (hmem : col ∈ cols)
    (hres : col = "PubChem_CID" ∨ col = "Smiles" ∨ col = "Status") :
    dictLookup col (processRow svc cols row) = some (CellVal.str (lookupCell row col)) := by
  have hne : col ≠ "Name" := by
    rcases hres with rfl | rfl | rfl <;> decide
  exact processRow_passthrough svc cols row col hmem hne

/-- Witness for C10: an input column named Smiles keeps its input value
in the output row (the resolver result for that field is overwritten). -/
theorem passthrough_overwrites_resolver_w :
    dictLookup "Smiles"
        (processRow svcOk ["Name", "Smiles"] [("Name", "x"), ("Smiles", "keep")])
      = some (CellVal.str (lookupCell [("Name", "x"), ("Smiles", "keep")] "Smiles")) :=
  passthrough_overwrites_resolver svcOk ["Name", "Smiles"]
    [("Name", "x"), ("Smiles", "keep")] "Smiles" (by decide) (Or.inr (Or.inl rfl))
